import Mathlib

/-!
Verification development for the FortifAI asset store.

This file gives a shallow embedding of the per-type asset table store
implemented in `src/data-layer/main.py` and of the client layer in
`src/microservices/data-access-service/src/` (`data_layer_client.py`,
`service.py`), and proves properties of these functions.

Modelling conventions:
* A persisted table is a `List Row`.  The pandas frame obtained by reading
  the table blob is modelled as `Option (List Row)`: `some rows` is a frame
  carrying the expected columns (a blob previously written with rows), while
  `none` models the column-less empty frame `pd.DataFrame()` produced when
  the blob is absent (`NoSuchKey`).  Looking up the `unique_id` column of a
  column-less frame raises `KeyError` in pandas; in the model this surfaces
  as `BatchError.keyError` / `Except.error`.
* `metadata` and `tags` travel as their JSON-serialized text (the store
  keeps `json.dumps(...)` of them in the frame and `json.loads` them back
  when building responses); the model carries the serialized string.
* Timestamps are opaque strings; `datetime.utcnow()` readings are passed in
  as explicit arguments (one per loop iteration where the code calls it in
  a loop).
* Each write endpoint returns the list of table blobs it wrote (`writes`),
  so that "exactly one whole-table rewrite" is a provable statement.
-/

namespace FortifAI

namespace DataLayer

/-- The `AssetType` enumeration of `data-layer/main.py`. -/
inductive AssetType where
  | vpc | subnet | ec2 | s3 | iam_role | sg | user | igw | ni | lambdaFn | iam_policy
deriving DecidableEq, Repr

/-- The `.value` string of each `AssetType` member. -/
def AssetType.value : AssetType → String
  | .vpc => "vpc"
  | .subnet => "subnet"
  | .ec2 => "ec2"
  | .s3 => "s3"
  | .iam_role => "iam_role"
  | .sg => "sg"
  | .user => "user"
  | .igw => "igw"
  | .ni => "ni"
  | .lambdaFn => "lambda"
  | .iam_policy => "iam_policy"

/-- The `AssetCreate` request model: `unique_id`, `name`, optional
`description`, `metadata`, `tags` (carried as serialized JSON text) and
`is_stale`. -/
structure AssetCreate where
  unique_id : String
  name : String
  description : Option String
  metadata : String
  tags : String
  is_stale : Bool
deriving DecidableEq, Repr

/-- One row of a per-type table frame, with the columns written by
`create_asset` / `create_assets_batch`. -/
structure Row where
  asset_id : String
  unique_id : String
  name : String
  description : Option String
  metadata : String
  tags : String
  is_stale : Bool
  created_at : String
  updated_at : String
deriving DecidableEq, Repr

/-- The asset id computed by both `create_asset` (line 134) and
`create_assets_batch` (line 367): an f-string whose literal text is the
prefix `AssetType.` followed by the enum value, an underscore and the
caller-supplied unique id. -/
def mkAssetId (t : AssetType) (uid : String) : String :=
  "AssetType." ++ t.value ++ "_" ++ uid

/-- `create_asset` (`POST /assets/{asset_type}`, lines 123-210): reads the
current table (absent blob gives an empty frame, on which `pd.concat`
works), unconditionally appends one new row, rewrites the table and returns
the stored record.  There is no duplicate check of any kind.  `createdAt`
and `updatedAt` are the two `datetime.utcnow()` readings of lines 147-148.
Returns (new table as written, response record). -/
def create_asset (table : Option (List Row)) (t : AssetType) (a : AssetCreate)
    (createdAt updatedAt : String) : List Row × Row :=
  let aid := mkAssetId t a.unique_id
  let newRow : Row :=
    { asset_id := aid, unique_id := a.unique_id, name := a.name,
      description := a.description, metadata := a.metadata, tags := a.tags,
      is_stale := a.is_stale, created_at := createdAt, updated_at := updatedAt }
  (table.getD [] ++ [newRow], newRow)

/-- Result of a write endpoint: the table blobs written (in order) plus the
count reported in the response message. -/
structure UpdateResult where
  writes : List (List Row)
  processedCount : Nat
deriving DecidableEq, Repr

/-- One iteration of the `update_asset` loop (lines 235-240): rows matching
the input row's `unique_id` are replaced wholesale by the input row
(`df.loc[mask] = row`); if nothing matches, the input row is appended. -/
def updateStep (df : List Row) (r : Row) : List Row :=
  if df.any (fun x => x.unique_id == r.unique_id) then
    df.map (fun x => if x.unique_id == r.unique_id then r else x)
  else df ++ [r]

/-- `update_asset` (`PUT /assets/{asset_type}`, lines 212-255).  Input rows
are modelled as full `Row` records (the caller-supplied dicts carrying the
table's columns).  Reading an absent blob yields the column-less frame
(`none`); the first loop iteration then looks up the `unique_id` column and
raises `KeyError` (HTTP 500) before any write — unless the input is empty,
in which case the loop never runs and the empty frame is written back.
Otherwise the loop folds over the input rows and the table is rewritten
once at the end. -/
def update_asset (table : Option (List Row)) (data : List Row) :
    Except Unit UpdateResult :=
  match table with
  | none =>
      if data.isEmpty then Except.ok { writes := [[]], processedCount := 0 }
      else Except.error ()
  | some rows =>
      Except.ok { writes := [data.foldl updateStep rows],
                  processedCount := data.length }

/-- `list_assets_by_type` (`GET /assets/{asset_type}`, lines 257-326),
restricted to the page-selection logic on a present table: computes
`skip = (page - 1) * limit`; if `skip >= total` returns `[]`, otherwise
returns the slice `df.iloc[skip:end_idx]` with
`end_idx = min(skip + limit, total)`.  (Each selected row is then rendered
to a response object with `metadata`/`tags` parsed; that per-row rendering
does not change which rows are selected and is omitted here.) -/
def list_assets_by_type (rows : List Row) (page limit : Nat) : List Row :=
  let total := rows.length
  let skip := (page - 1) * limit
  if total ≤ skip then []
  else
    let endIdx := min (skip + limit) total
    (rows.drop skip).take (endIdx - skip)

/-- Failure modes of `create_assets_batch`: a pydantic `ValidationError`
(re-raised as HTTP 422 by the handler of lines 453-464), or the pandas
`KeyError` from looking up `unique_id` on a column-less frame (caught by the
generic handler of lines 465-467 as HTTP 500). -/
inductive BatchError where
  | validationError
  | keyError
deriving DecidableEq, Repr

/-- Result of a successful `create_assets_batch`: the table blobs written
and the response records (one per input, in input order). -/
structure BatchResult where
  writes : List (List Row)
  response : List Row
deriving DecidableEq, Repr

/-- The per-asset loop of `create_assets_batch` (lines 365-424), running on
a frame that carries the `unique_id` column.  `i` is the input position (the
code calls `datetime.utcnow()` once per iteration; `now i` is that reading).
If the asset's `unique_id` matches existing rows, those rows are updated in
place (`name`, `description`, `metadata`, `tags`, `is_stale`, `updated_at`;
`created_at` and `asset_id` untouched) and the response record carries the
first matching row's `created_at`; otherwise a fresh row is appended with
`created_at = updated_at = now i`.  Returns (final frame, response records
in input order). -/
def batchLoop (t : AssetType) (now : Nat → String) :
    Nat → List Row → List AssetCreate → List Row × List Row
  | _, df, [] => (df, [])
  | i, df, a :: rest =>
    let aid := mkAssetId t a.unique_id
    if !df.isEmpty && df.any (fun x => x.unique_id == a.unique_id) then
      let createdAt :=
        ((df.find? (fun x => x.unique_id == a.unique_id)).map Row.created_at).getD ""
      let df' := df.map (fun x =>
        if x.unique_id == a.unique_id then
          { x with name := a.name, description := a.description,
                   metadata := a.metadata, tags := a.tags,
                   is_stale := a.is_stale, updated_at := now i }
        else x)
      let res := batchLoop t now (i + 1) df' rest
      (res.1,
        { asset_id := aid, unique_id := a.unique_id, name := a.name,
          description := a.description, metadata := a.metadata, tags := a.tags,
          is_stale := a.is_stale, created_at := createdAt,
          updated_at := now i } :: res.2)
    else
      let newRow : Row :=
        { asset_id := aid, unique_id := a.unique_id, name := a.name,
          description := a.description, metadata := a.metadata, tags := a.tags,
          is_stale := a.is_stale, created_at := now i, updated_at := now i }
      let res := batchLoop t now (i + 1) (df ++ [newRow]) rest
      (res.1, newRow :: res.2)

/-- `create_assets_batch` (`POST /assets/{asset_type}/batch`,
lines 328-467).  The input is the raw batch: `some a` is a row that parses
as `AssetCreate`, `none` a row failing validation.  Any failing row makes
the whole request fail with a validation error (FastAPI body parsing and
the explicit re-validation loop of lines 338-347 both re-raise, reaching
the 422 handler) before the table is read; no per-row skipping happens.
Otherwise the table blob is read: if absent, the first loop iteration
looks up the `unique_id` column of the column-less frame — that lookup on
line 373 runs before the length guard of line 375 — raising
`KeyError` (HTTP 500) with nothing written, unless the batch is empty, in
which case the empty frame is written back.  On a frame with columns the
loop runs to completion and the table is rewritten exactly once. -/
def create_assets_batch (t : AssetType) (table : Option (List Row))
    (rawAssets : List (Option AssetCreate)) (now : Nat → String) :
    Except BatchError BatchResult :=
  if rawAssets.any Option.isNone then Except.error BatchError.validationError
  else
    let assets := rawAssets.filterMap id
    match table with
    | none =>
        if assets.isEmpty then Except.ok { writes := [[]], response := [] }
        else Except.error BatchError.keyError
    | some rows =>
        let res := batchLoop t now 0 rows assets
        Except.ok { writes := [res.1], response := res.2 }

end DataLayer

namespace Client

/-- One record handled by `DataLayerClient` batch operations: a dict with a
`UniqueId` field; the remaining fields are opaque (`payload`). -/
structure CRow where
  uniqueId : String
  payload : String
deriving DecidableEq, Repr

/-- The `UniqueId` column of a client-side frame. -/
def uniqueIds (l : List CRow) : List String := l.map CRow.uniqueId

/-- `DataLayerClient.batch_create_assets` (lines 130-160): reads the
existing frame; only when both the existing and the incoming frames are
non-empty, computes the set intersection of the incoming UniqueId values
with the existing ones and raises `ValueError` naming those ids if
non-empty (before any write);
otherwise appends the incoming records to the existing ones and writes the
combined frame.  Returns (combined frame written, records returned). -/
def batch_create_assets (existing incoming : List CRow) :
    Except (List String) (List CRow × List CRow) :=
  let duplicateIds :=
    if !existing.isEmpty && !incoming.isEmpty then
      (uniqueIds incoming).dedup.filter (fun s => (uniqueIds existing).contains s)
    else []
  if !duplicateIds.isEmpty then Except.error duplicateIds
  else
    let combined :=
      if existing.isEmpty then incoming
      else if incoming.isEmpty then existing
      else existing ++ incoming
    Except.ok (combined, incoming)

/-- `DataLayerClient.batch_update_assets` (lines 162-203): reads the
existing frame; only when both frames are non-empty, computes the set
difference of the incoming UniqueId values minus the existing ones and
raises `ValueError` naming the missing ids if non-empty.  If the existing frame is
empty the call returns the updates unchanged without writing; if the update
frame is empty it returns `[]` without writing.  Otherwise matching rows
are replaced wholesale by the update rows, the non-matching original rows
are kept, and the combined frame is written.  The first component of the
result is the frame written (`none` when no write was issued). -/
def batch_update_assets (existing updates : List CRow) :
    Except (List String) (Option (List CRow) × List CRow) :=
  let missingIds :=
    if !existing.isEmpty && !updates.isEmpty then
      (uniqueIds updates).dedup.filter (fun s => !(uniqueIds existing).contains s)
    else []
  if !missingIds.isEmpty then Except.error missingIds
  else if existing.isEmpty then Except.ok (none, updates)
  else if updates.isEmpty then Except.ok (none, [])
  else
    let mask := fun x : CRow => (uniqueIds updates).contains x.uniqueId
    let updated := updates.foldl
      (fun df u => df.map (fun x => if x.uniqueId == u.uniqueId then u else x))
      existing
    let combined := existing.filter (fun x => !mask x) ++ updated.filter mask
    Except.ok (some combined, updates)

end Client

namespace Service

/-- One raw dict submitted to `DataAccessService.create_assets_batch`. -/
structure RawAsset where
  unique_id : String
  name : String
deriving DecidableEq, Repr

/-- A parsed `Asset` response object. -/
structure ParsedAsset where
  tag : String
deriving DecidableEq, Repr

/-- Outcome of the remote `POST /assets/{type}/batch` call: success with
parsed assets, failure with `httpx.HTTPStatusError` (raised by
`raise_for_status`), or any other exception. -/
inductive RemoteBatchOutcome where
  | success (parsed : List ParsedAsset)
  | httpStatusError
  | otherFailure
deriving DecidableEq, Repr

/-- Observable result of one `DataAccessService.create_assets_batch` run:
how many individual single-record creates were attempted, and the value
returned (or the HTTP 500 raised). -/
structure BatchRun where
  individualAttempts : Nat
  result : Except Unit (List ParsedAsset)
deriving Repr

/-- `DataAccessService.create_assets_batch` (`service.py` lines 87-139).
On a successful batch call the parsed assets are returned.  On
`httpx.HTTPStatusError` the client falls back to one individual
`POST /assets/{type}` per input record, in input order; `individual i` is
the parsed asset when the create of record `i` succeeded and `none` when it
raised (the exception is logged and the loop continues).  The returned list
collects exactly the successes, in order.  Any other exception from the
batch call is re-raised as HTTP 500. -/
def create_assets_batch (assets : List RawAsset) (batchCall : RemoteBatchOutcome)
    (individual : Nat → Option ParsedAsset) : BatchRun :=
  match batchCall with
  | .success parsed => { individualAttempts := 0, result := Except.ok parsed }
  | .httpStatusError =>
      { individualAttempts := assets.length,
        result := Except.ok ((List.range assets.length).filterMap individual) }
  | .otherFailure => { individualAttempts := 0, result := Except.error () }

end Service

/-! Concrete fixtures used by counterexamples and witnesses. -/

/-- A sample create request with `unique_id = "i-1"`. -/
def sampleAsset : DataLayer.AssetCreate :=
  { unique_id := "i-1", name := "n1", description := none,
    metadata := "m1", tags := "g1", is_stale := false }

/-- A stored row with `unique_id = "i-1"` and `created_at = "2020"`. -/
def sampleRow : DataLayer.Row :=
  { asset_id := "AssetType.ec2_i-1", unique_id := "i-1", name := "n0",
    description := none, metadata := "m0", tags := "g0", is_stale := false,
    created_at := "2020", updated_at := "2020" }

/-- An update row for `unique_id = "i-1"` carrying its own timestamps. -/
def sampleRow2024 : DataLayer.Row :=
  { asset_id := "AssetType.ec2_i-1", unique_id := "i-1", name := "n2",
    description := none, metadata := "m2", tags := "g2", is_stale := false,
    created_at := "2024", updated_at := "2024" }

/-- A deterministic clock for witnesses: reading `i` is `"t" ++ toString i`. -/
def nowFn : Nat → String := fun i => "t" ++ toString i

/-- A client row with `UniqueId = "u1"`. -/
def cU1 : Client.CRow := { uniqueId := "u1", payload := "p1" }

/-- A second client row with `UniqueId = "u1"`. -/
def cU1b : Client.CRow := { uniqueId := "u1", payload := "p2" }

/-- A client row with `UniqueId = "u2"`. -/
def cU2 : Client.CRow := { uniqueId := "u2", payload := "p3" }

/-- The row produced by batch-upserting `sampleAsset` over `[sampleRow]` with
clock `nowFn`: the stored fields are replaced, `created_at = "2020"` is
preserved and `updated_at = "t0"` is stamped. -/
def updatedSampleRow : DataLayer.Row :=
  { asset_id := "AssetType.ec2_i-1", unique_id := "i-1", name := "n1",
    description := none, metadata := "m1", tags := "g1", is_stale := false,
    created_at := "2020", updated_at := "t0" }

/-- The full result of that batch upsert: one table rewrite, one response. -/
def batchRes : DataLayer.BatchResult :=
  { writes := [[updatedSampleRow]], response := [updatedSampleRow] }

/-- A three-row table used to exercise pagination. -/
def rows3 : List DataLayer.Row := [sampleRow, sampleRow2024, updatedSampleRow]

/-- Five raw records submitted to the service batch create. -/
def raw5 : List Service.RawAsset :=
  [{ unique_id := "a1", name := "n1" }, { unique_id := "a2", name := "n2" },
   { unique_id := "a3", name := "n3" }, { unique_id := "a4", name := "n4" },
   { unique_id := "a5", name := "n5" }]

/-- Individual-create outcomes where records 1 and 3 fail and the rest
succeed. -/
def ind5 : Nat → Option Service.ParsedAsset :=
  fun i => if i == 1 || i == 3 then none else some { tag := "s" ++ toString i }

end FortifAI


namespace FortifAI

/-! Helper lemmas. -/

/-- A page request at 1-based page `i + 1` selects the `L`-sized chunk
starting at offset `i * L`. -/
theorem listPage_eq (rows : List DataLayer.Row) (L i : Nat) :
    DataLayer.list_assets_by_type rows (i + 1) L = (rows.drop (i * L)).take L := by
  unfold DataLayer.list_assets_by_type
  simp only [Nat.add_sub_cancel]
  by_cases h : rows.length ≤ i * L
  · rw [if_pos h, List.drop_eq_nil_of_le h, List.take_nil]
  · rw [if_neg h]
    push_neg at h
    rcases le_or_lt (i * L + L) rows.length with h2 | h2
    · rw [min_eq_left h2]
      congr 1
      omega
    · rw [min_eq_right (le_of_lt h2)]
      have hlen : (rows.drop (i * L)).length = rows.length - i * L :=
        List.length_drop _ _
      rw [List.take_of_length_le (by omega), List.take_of_length_le (by omega)]

/-- Concatenating the first `k` chunks of size `L` gives the first `k * L`
elements. -/
theorem chunks_flatten (rows : List DataLayer.Row) (L : Nat) :
    ∀ k, ((List.range k).map (fun i => (rows.drop (i * L)).take L)).flatten
      = rows.take (k * L)
  | 0 => by simp
  | k + 1 => by
    rw [List.range_succ, List.map_append, List.flatten_append,
      chunks_flatten rows L k]
    simp [Nat.succ_mul, List.take_add]

/-- Ceiling division: `N ≤ ceil(N / L) * L` for `L ≥ 1`. -/
theorem le_ceil_mul (N L : Nat) (hL : 1 ≤ L) : N ≤ (N + L - 1) / L * L := by
  rcases L with _ | M
  · exact absurd hL (by omega)
  · have h4 : N + (M + 1) - 1 = N + M := by omega
    rw [h4, Nat.mul_comm]
    have h2 := Nat.div_add_mod (N + M) (M + 1)
    have h3 : (N + M) % (M + 1) < M + 1 := Nat.mod_lt _ (Nat.succ_pos M)
    have h6 : N + M < (M + 1) * ((N + M) / (M + 1)) + (M + 1) := by
      calc N + M = (M + 1) * ((N + M) / (M + 1)) + (N + M) % (M + 1) := h2.symm
        _ < (M + 1) * ((N + M) / (M + 1)) + (M + 1) := Nat.add_lt_add_left h3 _
    have h7 : N + (M + 1) ≤ (M + 1) * ((N + M) / (M + 1)) + (M + 1) := by
      rw [← Nat.add_assoc]
      exact h6
    exact Nat.le_of_add_le_add_right h7

/-- Closed form of the client batch create: an error naming the ids shared
with the existing table when both frames are non-empty and such an id
exists, a successful combined write otherwise. -/
theorem batch_create_eq (existing incoming : List Client.CRow) :
    Client.batch_create_assets existing incoming =
      if existing ≠ [] ∧ incoming ≠ [] ∧ ∃ r ∈ incoming, r.uniqueId ∈ Client.uniqueIds existing
      then Except.error ((Client.uniqueIds incoming).dedup.filter
             (fun s => (Client.uniqueIds existing).contains s))
      else Except.ok ((if existing.isEmpty then incoming
             else if incoming.isEmpty then existing else existing ++ incoming), incoming) := by
  by_cases h1 : existing = []
  · subst h1
    rw [if_neg (by simp)]
    rfl
  · by_cases h2 : incoming = []
    · subst h2
      rw [if_neg (by simp)]
      have hdup : (if !existing.isEmpty && !([] : List Client.CRow).isEmpty then
          (Client.uniqueIds ([] : List Client.CRow)).dedup.filter
            (fun s => (Client.uniqueIds existing).contains s)
          else []) = [] := by
        simp
      unfold Client.batch_create_assets
      rw [hdup]
      simp [List.isEmpty_iff, h1]
    · have hcond : (!existing.isEmpty && !incoming.isEmpty) = true := by
        simp [List.isEmpty_iff, h1, h2]
      by_cases h3 : ∃ r ∈ incoming, r.uniqueId ∈ Client.uniqueIds existing
      · obtain ⟨r, hr, hrin⟩ := h3
        have hmem : r.uniqueId ∈ (Client.uniqueIds incoming).dedup.filter
            (fun s => (Client.uniqueIds existing).contains s) := by
          rw [List.mem_filter]
          refine ⟨List.mem_dedup.mpr (List.mem_map_of_mem _ hr), by simp [hrin]⟩
        have hMne : ¬ ((Client.uniqueIds incoming).dedup.filter
            (fun s => (Client.uniqueIds existing).contains s)).isEmpty = true := by
          simp only [List.isEmpty_iff]
          exact List.ne_nil_of_mem hmem
        rw [if_pos ⟨h1, h2, r, hr, hrin⟩]
        unfold Client.batch_create_assets
        rw [hcond]
        simp only [if_true]
        rw [if_pos (by simpa using hMne)]
      · have hdup : (Client.uniqueIds incoming).dedup.filter
            (fun s => (Client.uniqueIds existing).contains s) = [] := by
          rw [List.filter_eq_nil_iff]
          intro s hs
          rw [List.mem_dedup] at hs
          obtain ⟨r, hr, rfl⟩ := List.mem_map.mp hs
          intro hc
          rw [List.contains_iff_exists_mem_beq] at hc
          obtain ⟨a, ha, hab⟩ := hc
          exact h3 ⟨r, hr, by rw [show r.uniqueId = a from by simpa using hab]; exact ha⟩
        rw [if_neg (by rintro ⟨_, _, hx⟩; exact h3 hx)]
        unfold Client.batch_create_assets
        rw [hcond]
        simp only [if_true]
        rw [hdup]
        simp

/-- Every response record of the batch loop carries the derived asset id,
and every row of the final frame either descends from a row of the starting
frame (same `asset_id` and `unique_id`) or carries the derived asset id. -/
theorem batchLoop_asset_ids (t : DataLayer.AssetType) (now : Nat → String) :
    ∀ (assets : List DataLayer.AssetCreate) (i : Nat) (df : List DataLayer.Row),
      (∀ r ∈ (DataLayer.batchLoop t now i df assets).2,
          r.asset_id = DataLayer.mkAssetId t r.unique_id)
      ∧ (∀ r ∈ (DataLayer.batchLoop t now i df assets).1,
          (∃ r0 ∈ df, r.asset_id = r0.asset_id ∧ r.unique_id = r0.unique_id)
            ∨ r.asset_id = DataLayer.mkAssetId t r.unique_id)
  | [], i, df => by
      refine ⟨fun r hr => absurd hr (List.not_mem_nil r), fun r hr => ?_⟩
      exact Or.inl ⟨r, hr, rfl, rfl⟩
  | a :: rest, i, df => by
      unfold DataLayer.batchLoop
      by_cases hcond : (!df.isEmpty && df.any fun x => x.unique_id == a.unique_id) = true
      · simp only [hcond, if_true]
        set df' := df.map (fun x =>
          if x.unique_id == a.unique_id then
            { x with name := a.name, description := a.description,
                     metadata := a.metadata, tags := a.tags,
                     is_stale := a.is_stale, updated_at := now i }
          else x) with hdf'
        obtain ⟨ih1, ih2⟩ := batchLoop_asset_ids t now rest (i + 1) df'
        refine ⟨?_, ?_⟩
        · intro r hr
          rcases List.mem_cons.mp hr with hr | hr
          · subst hr; rfl
          · exact ih1 r hr
        · intro r hr
          rcases ih2 r hr with ⟨r0, hr0, hid, huid⟩ | hmk
          · rw [hdf'] at hr0
            obtain ⟨x, hx, rfl⟩ := List.mem_map.mp hr0
            by_cases hxe : (x.unique_id == a.unique_id) = true
            · refine Or.inl ⟨x, hx, ?_, ?_⟩
              · rw [hid]; simp [hxe]
              · rw [huid]; simp [hxe]
            · refine Or.inl ⟨x, hx, ?_, ?_⟩
              · rw [hid]; simp [hxe]
              · rw [huid]; simp [hxe]
          · exact Or.inr hmk
      · simp only [hcond, if_false, Bool.false_eq_true]
        set newRow : DataLayer.Row :=
          { asset_id := DataLayer.mkAssetId t a.unique_id, unique_id := a.unique_id,
            name := a.name, description := a.description, metadata := a.metadata,
            tags := a.tags, is_stale := a.is_stale, created_at := now i,
            updated_at := now i } with hnew
        obtain ⟨ih1, ih2⟩ := batchLoop_asset_ids t now rest (i + 1) (df ++ [newRow])
        refine ⟨?_, ?_⟩
        · intro r hr
          rcases List.mem_cons.mp hr with hr | hr
          · subst hr; rfl
          · exact ih1 r hr
        · intro r hr
          rcases ih2 r hr with ⟨r0, hr0, hid, huid⟩ | hmk
          · rcases List.mem_append.mp hr0 with h0 | h0
            · exact Or.inl ⟨r0, h0, hid, huid⟩
            · rcases List.mem_singleton.mp h0 with rfl
              refine Or.inr ?_
              rw [hid, huid]
          · exact Or.inr hmk

end FortifAI

namespace FortifAI

/-! Claim theorems. -/

/-- C1 (corrected): `create_asset` performs no duplicate check at all — it
always succeeds and appends its row to whatever table it read, so a create
whose `unique_id` is already present leaves the table with (at least) two
records sharing that `unique_id` instead of failing with `Conflict`. -/
theorem C1_create_appends_unconditionally (table : Option (List DataLayer.Row))
    (t : DataLayer.AssetType) (a : DataLayer.AssetCreate) (c u : String) :
    (DataLayer.create_asset table t a c u).1
        = table.getD [] ++ [(DataLayer.create_asset table t a c u).2]
    ∧ ((∃ r ∈ table.getD [], r.unique_id = a.unique_id) →
        2 ≤ (DataLayer.create_asset table t a c u).1.countP
              (fun r => r.unique_id == a.unique_id)) := by
  constructor
  · rfl
  · rintro ⟨r, hr, hru⟩
    have h1 : 0 < (table.getD []).countP (fun r => r.unique_id == a.unique_id) := by
      rw [List.countP_pos_iff]
      exact ⟨r, hr, by simp [hru]⟩
    simp only [DataLayer.create_asset, List.countP_append]
    have h2 : ([(DataLayer.create_asset table t a c u).2].countP
        (fun r => r.unique_id == a.unique_id)) = 1 := by
      simp [DataLayer.create_asset, List.countP_cons]
    simp only [DataLayer.create_asset] at h2
    omega

/-- C1 counterexample: creating `unique_id = "i-1"` over a table that
already holds a row with `unique_id = "i-1"` does not fail and does not
leave the table unchanged — the resulting table holds two rows with that
`unique_id`. -/
theorem C1_counterexample :
    (DataLayer.create_asset (some [sampleRow]) DataLayer.AssetType.ec2 sampleAsset
        "t1" "t1").1 ≠ [sampleRow]
    ∧ 2 ≤ (DataLayer.create_asset (some [sampleRow]) DataLayer.AssetType.ec2 sampleAsset
        "t1" "t1").1.countP (fun r => r.unique_id == "i-1") := by decide

/-- C1 witness: the amended theorem applied to a concrete duplicate
create. -/
theorem C1_witness :
    ((DataLayer.create_asset (some [sampleRow]) DataLayer.AssetType.ec2 sampleAsset
        "t1" "t1").1
      = (some [sampleRow] : Option (List DataLayer.Row)).getD []
          ++ [(DataLayer.create_asset (some [sampleRow]) DataLayer.AssetType.ec2
                sampleAsset "t1" "t1").2])
    ∧ 2 ≤ (DataLayer.create_asset (some [sampleRow]) DataLayer.AssetType.ec2 sampleAsset
        "t1" "t1").1.countP (fun r => r.unique_id == sampleAsset.unique_id) := by
  refine ⟨(C1_create_appends_unconditionally (some [sampleRow]) DataLayer.AssetType.ec2
      sampleAsset "t1" "t1").1,
    (C1_create_appends_unconditionally (some [sampleRow]) DataLayer.AssetType.ec2
      sampleAsset "t1" "t1").2 ⟨sampleRow, by decide, by decide⟩⟩

/-- C2 (corrected): the asset id stored and returned by `create_asset` and
`create_assets_batch` is the pure function
`mkAssetId t uid = "AssetType." ++ t.value ++ "_" ++ uid` of
`(asset_type, unique_id)` — note the literal `AssetType.` prefix, so an
`ec2` record with `unique_id = "i-1"` gets `"AssetType.ec2_i-1"`, not
`"ec2_i-1"`.  Batch responses all carry this id, and every stored row
either keeps the `asset_id`/`unique_id` pair of a previously stored row or
carries this id. -/
theorem C2_asset_id_enum_prefixed_format :
    (∀ (t : DataLayer.AssetType) (uid : String),
        DataLayer.mkAssetId t uid = "AssetType." ++ t.value ++ "_" ++ uid)
    ∧ (∀ (table : Option (List DataLayer.Row)) (t : DataLayer.AssetType)
          (a : DataLayer.AssetCreate) (c u : String),
        (DataLayer.create_asset table t a c u).2.asset_id
            = DataLayer.mkAssetId t a.unique_id
        ∧ (DataLayer.create_asset table t a c u).1
            = table.getD [] ++ [(DataLayer.create_asset table t a c u).2])
    ∧ (∀ (t : DataLayer.AssetType) (table : Option (List DataLayer.Row))
          (raw : List (Option DataLayer.AssetCreate)) (now : Nat → String)
          (res : DataLayer.BatchResult),
        DataLayer.create_assets_batch t table raw now = Except.ok res →
        (∀ r ∈ res.response, r.asset_id = DataLayer.mkAssetId t r.unique_id)
        ∧ ∀ w ∈ res.writes, ∀ r ∈ w,
            (∃ r0 ∈ table.getD [],
                r.asset_id = r0.asset_id ∧ r.unique_id = r0.unique_id)
            ∨ r.asset_id = DataLayer.mkAssetId t r.unique_id) := by
  refine ⟨fun t uid => rfl, fun table t a c u => ⟨rfl, rfl⟩, ?_⟩
  intro t table raw now res h
  by_cases hval : raw.any Option.isNone = true
  · unfold DataLayer.create_assets_batch at h
    rw [if_pos hval] at h
    exact absurd h (by simp)
  · unfold DataLayer.create_assets_batch at h
    rw [if_neg hval] at h
    cases table with
    | none =>
        dsimp only at h
        by_cases hemp : (raw.filterMap id).isEmpty = true
        · rw [if_pos hemp] at h
          obtain rfl := (Except.ok.inj h).symm
          exact ⟨fun r hr => absurd hr (List.not_mem_nil r), by
            intro w hw r hr
            rcases List.mem_singleton.mp hw with rfl
            exact absurd hr (List.not_mem_nil r)⟩
        · rw [if_neg hemp] at h
          exact absurd h (by simp)
    | some rows =>
        dsimp only at h
        obtain rfl := (Except.ok.inj h).symm
        obtain ⟨h1, h2⟩ := batchLoop_asset_ids t now (raw.filterMap id) 0 rows
        refine ⟨h1, ?_⟩
        intro w hw r hr
        rcases List.mem_singleton.mp hw with rfl
        exact h2 r hr

/-- C2 counterexample: creating an `ec2` record with `unique_id = "i-1"`
yields `asset_id = "AssetType.ec2_i-1"`, not `"ec2_i-1"` as claimed. -/
theorem C2_counterexample :
    (DataLayer.create_asset none DataLayer.AssetType.ec2 sampleAsset "t0" "t0").2.asset_id
        = "AssetType.ec2_i-1"
    ∧ (DataLayer.create_asset none DataLayer.AssetType.ec2 sampleAsset "t0" "t0").2.asset_id
        ≠ "ec2_i-1" := by decide

/-- C2 witness: the amended theorem applied to a concrete successful batch
upsert. -/
theorem C2_witness :
    DataLayer.create_assets_batch DataLayer.AssetType.ec2 (some [sampleRow])
        [some sampleAsset] nowFn = Except.ok batchRes
    ∧ (∀ r ∈ batchRes.response,
        r.asset_id = DataLayer.mkAssetId DataLayer.AssetType.ec2 r.unique_id)
    ∧ ∀ w ∈ batchRes.writes, ∀ r ∈ w,
        (∃ r0 ∈ (some [sampleRow] : Option (List DataLayer.Row)).getD [],
            r.asset_id = r0.asset_id ∧ r.unique_id = r0.unique_id)
        ∨ r.asset_id = DataLayer.mkAssetId DataLayer.AssetType.ec2 r.unique_id := by
  refine ⟨rfl, ?_, ?_⟩
  · exact (C2_asset_id_enum_prefixed_format.2.2 DataLayer.AssetType.ec2 (some [sampleRow])
      [some sampleAsset] nowFn batchRes rfl).1
  · exact (C2_asset_id_enum_prefixed_format.2.2 DataLayer.AssetType.ec2 (some [sampleRow])
      [some sampleAsset] nowFn batchRes rfl).2

/-- C3 (code bug): on a fresh asset type — no table blob, so the read gives
the column-less empty frame — a batch upsert of one valid record does not
append the record and rewrite the table as the claim describes: the lookup
of the `unique_id` column (line 373), evaluated before the length guard of
line 375, raises `KeyError`, the request fails with HTTP 500 and nothing
is written. -/
theorem C3_fresh_table_batch_keyerror :
    DataLayer.create_assets_batch DataLayer.AssetType.ec2 none [some sampleAsset] nowFn
      = Except.error DataLayer.BatchError.keyError := rfl

end FortifAI

namespace FortifAI

/-- C4 (corrected): for an input row whose `unique_id` is present,
`update_asset` replaces the matching stored row(s) wholesale with the input
row (`df.loc[mask] = row`): the stored `created_at` is not preserved and
`updated_at` is not stamped by the store — both come from the input row.
An absent `unique_id` appends the row, and the whole table is rewritten
once after processing all input rows, provided the table blob exists. -/
theorem C4_update_replaces_wholesale (rows : List DataLayer.Row) (r : DataLayer.Row) :
    ((rows.any (fun x => x.unique_id == r.unique_id)) = true →
        DataLayer.update_asset (some rows) [r]
          = Except.ok
              { writes := [rows.map
                  (fun x => if x.unique_id == r.unique_id then r else x)],
                processedCount := 1 })
    ∧ ((rows.any (fun x => x.unique_id == r.unique_id)) = false →
        DataLayer.update_asset (some rows) [r]
          = Except.ok { writes := [rows ++ [r]], processedCount := 1 })
    ∧ (∀ data : List DataLayer.Row, ∃ final,
        DataLayer.update_asset (some rows) data
          = Except.ok { writes := [final], processedCount := data.length }) := by
  refine ⟨fun h => ?_, fun h => ?_,
    fun data => ⟨data.foldl DataLayer.updateStep rows, rfl⟩⟩
  · simp [DataLayer.update_asset, DataLayer.updateStep, h]
  · simp [DataLayer.update_asset, DataLayer.updateStep, h]

/-- C4 counterexample: updating the stored row (`created_at = "2020"`) with
an input row carrying `created_at = "2024"` stores the input row as-is: the
original `created_at` is not preserved and `updated_at` is whatever the
input carried, not a fresh `now`. -/
theorem C4_counterexample :
    DataLayer.update_asset (some [sampleRow]) [sampleRow2024]
      = Except.ok { writes := [[sampleRow2024]], processedCount := 1 }
    ∧ sampleRow2024.created_at ≠ sampleRow.created_at := ⟨rfl, by decide⟩

/-- C4 witness: the amended theorem applied to a concrete matched update. -/
theorem C4_witness :
    DataLayer.update_asset (some [sampleRow]) [sampleRow2024]
      = Except.ok
          { writes := [[sampleRow].map (fun x =>
              if x.unique_id == sampleRow2024.unique_id then sampleRow2024 else x)],
            processedCount := 1 } :=
  (C4_update_replaces_wholesale [sampleRow] sampleRow2024).1 (by decide)

/-- C5 (corrected): a batch containing any row that fails validation is
rejected as a whole with a validation error before the table is read or
written; no per-row error accumulation or skipping exists, and none of the
remaining rows is committed. -/
theorem C5_validation_aborts_whole_batch (t : DataLayer.AssetType)
    (table : Option (List DataLayer.Row)) (raw : List (Option DataLayer.AssetCreate))
    (now : Nat → String) (h : none ∈ raw) :
    DataLayer.create_assets_batch t table raw now
      = Except.error DataLayer.BatchError.validationError := by
  unfold DataLayer.create_assets_batch
  rw [if_pos]
  rw [List.any_eq_true]
  exact ⟨none, h, rfl⟩

/-- C5 counterexample: a batch of one valid and one invalid row over an
existing table fails as a whole — the valid row is not processed and no
write happens, refuting per-row skipping. -/
theorem C5_counterexample :
    DataLayer.create_assets_batch DataLayer.AssetType.ec2 (some [sampleRow])
        [some sampleAsset, none] nowFn
      = Except.error DataLayer.BatchError.validationError := rfl

/-- C5 witness: the amended theorem applied to a concrete invalid batch. -/
theorem C5_witness :
    DataLayer.create_assets_batch DataLayer.AssetType.ec2 none [none] nowFn
      = Except.error DataLayer.BatchError.validationError :=
  C5_validation_aborts_whole_batch DataLayer.AssetType.ec2 none [none] nowFn (by decide)

/-- C6 (confirmed): for a table of `N` rows and `1 ≤ L ≤ 1000`,
concatenating pages `1 .. ceil(N / L)` reproduces all rows exactly once in
table order, page `ceil(N / L) + 1` is empty, and in general a page whose
`skip = (page - 1) * L` reaches `N` is empty (not an error) while any other
page returns the rows of `[skip, min(skip + L, N))`. -/
theorem C6_pagination_complete (rows : List DataLayer.Row) (L : Nat)
    (h1 : 1 ≤ L) (hupper : L ≤ 1000) :
    (((List.range ((rows.length + L - 1) / L)).map
        (fun i => DataLayer.list_assets_by_type rows (i + 1) L)).flatten = rows)
    ∧ DataLayer.list_assets_by_type rows ((rows.length + L - 1) / L + 1) L = []
    ∧ ∀ page, 1 ≤ page →
        (rows.length ≤ (page - 1) * L →
          DataLayer.list_assets_by_type rows page L = [])
        ∧ ((page - 1) * L < rows.length →
          DataLayer.list_assets_by_type rows page L
            = (rows.drop ((page - 1) * L)).take L) := by
  refine ⟨?_, ?_, ?_⟩
  · have hmap : (List.range ((rows.length + L - 1) / L)).map
        (fun i => DataLayer.list_assets_by_type rows (i + 1) L)
        = (List.range ((rows.length + L - 1) / L)).map
            (fun i => (rows.drop (i * L)).take L) :=
      List.map_congr_left (fun i _ => listPage_eq rows L i)
    rw [hmap, chunks_flatten rows L]
    exact List.take_of_length_le (le_ceil_mul rows.length L h1)
  · rw [listPage_eq rows L]
    rw [List.drop_eq_nil_of_le (le_ceil_mul rows.length L h1), List.take_nil]
  · intro page hpage
    constructor
    · intro hskip
      unfold DataLayer.list_assets_by_type
      rw [if_pos hskip]
    · intro hskip
      obtain ⟨i, rfl⟩ : ∃ i, page = i + 1 := ⟨page - 1, by omega⟩
      simp only [Nat.add_sub_cancel]
      exact listPage_eq rows L i

/-- C6 witness: the pagination theorem applied to a three-row table with
limit 2. -/
theorem C6_witness :
    ((List.range ((rows3.length + 2 - 1) / 2)).map
        (fun i => DataLayer.list_assets_by_type rows3 (i + 1) 2)).flatten = rows3 :=
  (C6_pagination_complete rows3 2 (by decide) (by decide)).1

end FortifAI

namespace FortifAI

/-- C7 (corrected): provided the existing table is non-empty, the client's
`batch_update_assets` pre-check computes incoming ids minus existing ids
and, when the difference is non-empty, fails before any write with an error
naming exactly the missing ids — every incoming id absent from the existing
table and no other.  (When the existing table is empty the pre-check is
skipped entirely; see the counterexample.) -/
theorem C7_missing_key_check_needs_rows (existing updates : List Client.CRow)
    (hne : existing ≠ [])
    (hmiss : ∃ u ∈ updates, u.uniqueId ∉ Client.uniqueIds existing) :
    ∃ e, Client.batch_update_assets existing updates = Except.error e
      ∧ ∀ s, s ∈ e ↔ (s ∈ Client.uniqueIds updates ∧ s ∉ Client.uniqueIds existing) := by
  obtain ⟨u, hu, humiss⟩ := hmiss
  have hupne : updates ≠ [] := by rintro rfl; exact absurd hu (List.not_mem_nil u)
  have hcond : (!existing.isEmpty && !updates.isEmpty) = true := by
    simp [List.isEmpty_iff, hne, hupne]
  set M := (Client.uniqueIds updates).dedup.filter
      (fun s => !(Client.uniqueIds existing).contains s) with hM
  have hmem : u.uniqueId ∈ M := by
    rw [hM, List.mem_filter]
    refine ⟨List.mem_dedup.mpr (List.mem_map_of_mem _ hu), by simp [humiss]⟩
  have hMnil : M ≠ [] := List.ne_nil_of_mem hmem
  refine ⟨M, ?_, ?_⟩
  · simp only [Client.batch_update_assets, hcond, ← hM]
    simp [hMnil]
  · intro s
    rw [hM, List.mem_filter, List.mem_dedup]
    simp [Client.uniqueIds]

/-- C7 counterexample: against an empty existing table, a one-row update
batch has a non-empty set difference (its id is absent), yet the call does
not fail with `NotFound` — it returns the input unchanged with no write. -/
theorem C7_counterexample :
    Client.batch_update_assets [] [cU1] = Except.ok (none, [cU1]) := rfl

/-- C7 witness: the amended theorem applied to a non-empty table missing
the incoming id. -/
theorem C7_witness :
    ∃ e, Client.batch_update_assets [cU2] [cU1] = Except.error e
      ∧ ∀ s, s ∈ e ↔ (s ∈ Client.uniqueIds [cU1] ∧ s ∉ Client.uniqueIds [cU2]) :=
  C7_missing_key_check_needs_rows [cU2] [cU1] (by decide) ⟨cU1, by decide, by decide⟩

/-- C8 (confirmed): when the remote batch-create call fails with an HTTP
status error, the service does not propagate the failure: for `N` submitted
records it attempts exactly `N` individual creates and returns exactly the
records whose individual create succeeded, in input order. -/
theorem C8_batch_fallback_individual_creates (assets : List Service.RawAsset)
    (individual : Nat → Option Service.ParsedAsset) :
    (Service.create_assets_batch assets Service.RemoteBatchOutcome.httpStatusError
        individual).individualAttempts = assets.length
    ∧ ∃ successes,
        (Service.create_assets_batch assets Service.RemoteBatchOutcome.httpStatusError
            individual).result = Except.ok successes
        ∧ successes = (List.range assets.length).filterMap individual
        ∧ successes.length
            = ((List.range assets.length).filter (fun i => (individual i).isSome)).length
        ∧ ∀ a ∈ successes, ∃ i, i < assets.length ∧ individual i = some a := by
  refine ⟨rfl, (List.range assets.length).filterMap individual, rfl, rfl, ?_, ?_⟩
  · induction (List.range assets.length) with
    | nil => rfl
    | cons x xs ih =>
        cases hfx : individual x <;>
          simp [List.filterMap_cons, hfx, List.filter_cons, ih]
  · intro a ha
    obtain ⟨i, hi, hia⟩ := List.mem_filterMap.mp ha
    exact ⟨i, List.mem_range.mp hi, hia⟩

/-- C8 witness: the fallback theorem applied to five records of which two
individual creates fail — exactly the three successes are returned. -/
theorem C8_witness :
    (Service.create_assets_batch raw5 Service.RemoteBatchOutcome.httpStatusError
        ind5).individualAttempts = raw5.length
    ∧ ∃ successes,
        (Service.create_assets_batch raw5 Service.RemoteBatchOutcome.httpStatusError
            ind5).result = Except.ok successes
        ∧ successes = (List.range raw5.length).filterMap ind5
        ∧ successes.length
            = ((List.range raw5.length).filter (fun i => (ind5 i).isSome)).length
        ∧ ∀ a ∈ successes, ∃ i, i < raw5.length ∧ ind5 i = some a :=
  C8_batch_fallback_individual_creates raw5 ind5

/-- C9 (confirmed): when the existing table read by the client's
`batch_update_assets` is empty, the call returns the input update list
unchanged, raises no error and issues no write — even though every input id
is absent from the table. -/
theorem C9_empty_table_update_returns_input (updates : List Client.CRow) :
    Client.batch_update_assets [] updates = Except.ok (none, updates) := rfl

/-- C9 witness: the empty-table theorem at a concrete one-row update. -/
theorem C9_witness :
    Client.batch_update_assets [] [cU1b] = Except.ok (none, [cU1b]) :=
  C9_empty_table_update_returns_input [cU1b]

/-- C10 (confirmed): the client's `batch_create_assets` pre-check only
compares incoming ids against the existing table — the call errors exactly
when both frames are non-empty and some incoming id is already present —
never incoming ids against each other: a batch holding two records with the
same `UniqueId` absent from the existing table succeeds and writes a table
with that id stored twice; and when the existing table is empty the
pre-check is skipped entirely and the incoming records are written as-is. -/
theorem C10_duplicate_precheck_existing_only (existing incoming : List Client.CRow) :
    ((∃ e, Client.batch_create_assets existing incoming = Except.error e)
        ↔ (existing ≠ [] ∧ incoming ≠ []
            ∧ ∃ r ∈ incoming, r.uniqueId ∈ Client.uniqueIds existing))
    ∧ (∀ pre mid post r1 r2, incoming = pre ++ r1 :: mid ++ r2 :: post →
         r1.uniqueId = r2.uniqueId →
         (∀ r ∈ incoming, r.uniqueId ∉ Client.uniqueIds existing) →
         ∃ table, Client.batch_create_assets existing incoming
             = Except.ok (table, incoming)
           ∧ 2 ≤ table.countP (fun r => r.uniqueId == r1.uniqueId))
    ∧ (existing = [] → Client.batch_create_assets [] incoming
        = Except.ok (incoming, incoming)) := by
  refine ⟨?_, ?_, fun _ => rfl⟩
  · rw [batch_create_eq]
    constructor
    · rintro ⟨e, he⟩
      by_cases hc : existing ≠ [] ∧ incoming ≠ []
            ∧ ∃ r ∈ incoming, r.uniqueId ∈ Client.uniqueIds existing
      · exact hc
      · rw [if_neg hc] at he
        exact absurd he (by simp)
    · intro hc
      rw [if_pos hc]
      exact ⟨_, rfl⟩
  · rintro pre mid post r1 r2 rfl hr12 hno
    have hnc : ¬ (existing ≠ [] ∧ (pre ++ r1 :: mid ++ r2 :: post) ≠ []
        ∧ ∃ r ∈ (pre ++ r1 :: mid ++ r2 :: post),
            r.uniqueId ∈ Client.uniqueIds existing) := by
      rintro ⟨_, _, r, hr, hrin⟩
      exact hno r hr hrin
    rw [batch_create_eq, if_neg hnc]
    have hcnt : 2 ≤ (pre ++ r1 :: mid ++ r2 :: post).countP
        (fun r => r.uniqueId == r1.uniqueId) := by
      simp [List.countP_append, List.countP_cons, hr12]
      omega
    refine ⟨_, rfl, ?_⟩
    by_cases hce : existing.isEmpty = true
    · simpa [hce] using hcnt
    · have hce' : existing.isEmpty = false := by
        cases h : existing.isEmpty
        · rfl
        · exact absurd h hce
      have hci' : (pre ++ r1 :: mid ++ r2 :: post).isEmpty = false := by simp
      simp only [hce', hci', Bool.false_eq_true, if_false]
      rw [List.countP_append]
      exact le_trans hcnt (Nat.le_add_left _ _)

/-- C10 witness: a batch of two records sharing `UniqueId = "u1"` against a
table holding only `"u2"` commits both, leaving `"u1"` stored twice. -/
theorem C10_witness :
    ∃ table, Client.batch_create_assets [cU2] [cU1, cU1b]
        = Except.ok (table, [cU1, cU1b])
      ∧ 2 ≤ table.countP (fun r => r.uniqueId == cU1.uniqueId) :=
  (C10_duplicate_precheck_existing_only [cU2] [cU1, cU1b]).2.1
    [] [] [] cU1 cU1b rfl rfl (by decide)

end FortifAI
